import Mathlib

/-!
Verification of the `lsp-cli` session-manager core against its design
specification.  The definitions below are a shallow embedding of the Python
sources under `src/lsp_cli/` (`client.py`, `manager/client.py`,
`manager/manager.py`, `manager/cli.py`): pure functions become Lean
functions, the mutable session/manager objects become explicit state
records, Python exceptions become `Except` results, and monotonic-clock
timestamps become rationals supplied as arguments.
-/

namespace LspCli

/-! ## xxHash32

`get_client_id` hashes the project root with `xxhash.xxh32_hexdigest`.
The xxHash32 algorithm is embedded here in full over byte lists, with all
32-bit arithmetic made explicit via `% 2 ^ 32`. -/

def mask32 : Nat := 2 ^ 32

def xxPrime1 : Nat := 2654435761
def xxPrime2 : Nat := 2246822519
def xxPrime3 : Nat := 3266489917
def xxPrime4 : Nat := 668265263
def xxPrime5 : Nat := 374761393

/-- 32-bit left rotation. -/
def rotl32 (x r : Nat) : Nat :=
  ((x <<< r) ||| (x >>> (32 - r))) % mask32

/-- Little-endian 32-bit lane from four bytes. -/
def le4 (b0 b1 b2 b3 : Nat) : Nat :=
  b0 + 256 * b1 + 65536 * b2 + 16777216 * b3

/-- One accumulator round over a 4-byte lane (the 16-byte-stripe phase). -/
def xxRound (acc lane : Nat) : Nat :=
  (rotl32 ((acc + lane * xxPrime2) % mask32) 13 * xxPrime1) % mask32

/-- Consume 16-byte stripes into the four accumulators; return the
accumulators and the unconsumed tail. -/
def xxStripes : Nat → Nat → Nat → Nat → List Nat →
    Nat × Nat × Nat × Nat × List Nat
  | v1, v2, v3, v4,
    b0 :: b1 :: b2 :: b3 :: b4 :: b5 :: b6 :: b7 ::
    b8 :: b9 :: b10 :: b11 :: b12 :: b13 :: b14 :: b15 :: rest =>
      xxStripes (xxRound v1 (le4 b0 b1 b2 b3)) (xxRound v2 (le4 b4 b5 b6 b7))
        (xxRound v3 (le4 b8 b9 b10 b11)) (xxRound v4 (le4 b12 b13 b14 b15)) rest
  | v1, v2, v3, v4, rest => (v1, v2, v3, v4, rest)

/-- Consume remaining 4-byte chunks after the stripe phase. -/
def xxTail4 : Nat → List Nat → Nat × List Nat
  | acc, b0 :: b1 :: b2 :: b3 :: rest =>
      xxTail4 ((rotl32 ((acc + le4 b0 b1 b2 b3 * xxPrime3) % mask32) 17
        * xxPrime4) % mask32) rest
  | acc, rest => (acc, rest)

/-- Consume remaining single bytes. -/
def xxTail1 : Nat → List Nat → Nat
  | acc, b :: rest =>
      xxTail1 ((rotl32 ((acc + b * xxPrime5) % mask32) 11 * xxPrime1) % mask32)
        rest
  | acc, [] => acc

/-- Final avalanche mixing. -/
def xxAvalanche (acc : Nat) : Nat :=
  let acc := acc ^^^ (acc >>> 15)
  let acc := acc * xxPrime2 % mask32
  let acc := acc ^^^ (acc >>> 13)
  let acc := acc * xxPrime3 % mask32
  acc ^^^ (acc >>> 16)

/-- xxHash32 of a byte list with the given seed. -/
def xxh32 (bytes : List Nat) (seed : Nat) : Nat :=
  let n := bytes.length
  let start :=
    if 16 ≤ n then
      let s := xxStripes ((seed + xxPrime1 + xxPrime2) % mask32)
        ((seed + xxPrime2) % mask32) (seed % mask32)
        ((seed + mask32 - xxPrime1) % mask32) bytes
      ((rotl32 s.1 1 + rotl32 s.2.1 7 + rotl32 s.2.2.1 12
        + rotl32 s.2.2.2.1 18) % mask32, s.2.2.2.2)
    else ((seed + xxPrime5) % mask32, bytes)
  let acc := (start.1 + n) % mask32
  let t := xxTail4 acc start.2
  xxAvalanche (xxTail1 t.1 t.2)

/-- UTF-8 encoding of one code point, as byte values. -/
def utf8Bytes (c : Char) : List Nat :=
  let n := c.toNat
  if n < 128 then [n]
  else if n < 2048 then [192 + n / 64, 128 + n % 64]
  else if n < 65536 then [224 + n / 4096, 128 + n / 64 % 64, 128 + n % 64]
  else [240 + n / 262144, 128 + n / 4096 % 64, 128 + n / 64 % 64, 128 + n % 64]

/-- UTF-8 bytes of a string (Python `str.encode()`; hashing a `str` with
`xxhash` hashes its UTF-8 encoding). -/
def strBytes (s : String) : List Nat :=
  s.data.flatMap utf8Bytes

/-- Lowercase hex digit. -/
def hexDigit (n : Nat) : Char :=
  if n < 10 then Char.ofNat (48 + n) else Char.ofNat (87 + n)

/-- Fixed-width 8-digit lowercase hex rendering of a 32-bit value,
as produced by `xxh32_hexdigest`. -/
def toHex8 (n : Nat) : String :=
  String.mk ((List.range 8).map (fun i => hexDigit (n / 16 ^ (7 - i) % 16)))

/-- Function `xxhash.xxh32_hexdigest` applied to a string (default seed 0). -/
def xxh32Hexdigest (s : String) : String :=
  toHex8 (xxh32 (strBytes s) 0)

-- Published xxHash32 test vectors (seed 0).
example : xxh32Hexdigest "" = "02cc5d05" := by decide
example : xxh32Hexdigest "a" = "550d7456" := by decide
example : xxh32Hexdigest "abc" = "32d153ff" := by decide
example : xxh32Hexdigest "Nobody inspects the spammish repetition"
    = "e2293b2f" := by decide

/-! ## Language descriptors and target resolution

`src/lsp_cli/client.py`.  The descriptor registry (`lang_clients` from the
external `lsp_client` library) is configuration frozen at process start; it
is passed in as a list of descriptors.  A client class is represented by
its language kind tag (`client_cls.get_language_config().kind`). -/

/-- Structure `TargetLspClient` (`src/lsp_cli/client.py`): the resolved
(project root, client class) pair; the client class is represented by its
language kind tag.  Paths are posix strings. -/
structure TargetLspClient where
  projectPath : String
  kind : String
deriving DecidableEq, Repr

/-- A language descriptor from the external registry: its kind tag and its
`find_project_root` function. -/
structure LanguageDescriptor where
  kind : String
  findProjectRoot : String → Option String

/-- Function `find_client` (`src/lsp_cli/client.py`): iterate the registry's
candidates in order; the first descriptor whose `find_project_root`
returns a root wins. -/
def findClient : List LanguageDescriptor → String → Option TargetLspClient
  | [], _ => none
  | d :: rest, path =>
    match d.findProjectRoot path with
    | some root => some { projectPath := root, kind := d.kind }
    | none => findClient rest path

/-- Function `get_client_id` (`src/lsp_cli/manager/client.py`):
`f"{kind.value}-{path_hash}-default"` with
`path_hash = xxhash.xxh32_hexdigest(target.project_path.as_posix())`. -/
def getClientId (t : TargetLspClient) : String :=
  t.kind ++ "-" ++ xxh32Hexdigest t.projectPath ++ "-default"

/-- Socket path for a session id: `RUNTIME_DIR / f"{id}.sock"`.  The
runtime directory comes from the settings module and is passed in. -/
def udsPathOfId (runtimeDir cid : String) : String :=
  runtimeDir ++ "/" ++ cid ++ ".sock"

/-- Property `ManagedClient.uds_path`. -/
def udsPath (runtimeDir : String) (t : TargetLspClient) : String :=
  udsPathOfId runtimeDir (getClientId t)

/-! ## Python exceptions and their HTTP surfacing -/

/-- The exceptions the embedded code can raise.  `notFound` is litestar's
`NotFoundException`; the others are plain Python exceptions. -/
inductive PyError where
  | notFound (detail : String)
  | typeError (msg : String)
  | attributeError (attr : String)
  | runtimeError (msg : String)
deriving DecidableEq, Repr

/-- Litestar's exception-to-status mapping for exceptions escaping a route
handler: `NotFoundException` is an `HTTPException` carrying status 404;
any non-HTTP exception (`TypeError`, `AttributeError`, `RuntimeError`) is
surfaced as 500 Internal Server Error. -/
def httpStatus : PyError → Nat
  | .notFound _ => 404
  | .typeError _ => 500
  | .attributeError _ => 500
  | .runtimeError _ => 500

/-- A status in the 4xx (client error) band. -/
def is4xx (n : Nat) : Prop := 400 ≤ n ∧ n < 500

/-! ## ManagedClient state

`src/lsp_cli/manager/client.py`.  The attrs fields declared
`field(init=False)` (`_server`, `_timeout_scope`, `_server_scope`) are not
assigned by `__init__`; reading one before its first assignment raises
`AttributeError`.  Each such field is modelled by a `...Set` flag recording
whether it has been assigned, plus the observable state of its value. -/

structure ManagedClient where
  target : TargetLspClient
  /-- Field `_deadline` (monotonic timestamp). -/
  deadline : ℚ
  /-- Field `_should_exit`. -/
  shouldExit : Bool := false
  /-- whether `_server` has been assigned (happens in `_serve`). -/
  serverSet : Bool := false
  /-- Flag `_server.should_exit` (uvicorn's exit flag). -/
  serverShouldExit : Bool := false
  /-- whether `_timeout_scope` has been assigned (first happens inside
  `_timeout_loop`'s sleep). -/
  timeoutScopeSet : Bool := false
  /-- whether `_timeout_scope` is cancelled. -/
  timeoutScopeCancelled : Bool := false
  /-- whether `_server_scope` has been assigned (happens in `_serve`). -/
  serverScopeSet : Bool := false
  /-- whether `_server_scope` is cancelled. -/
  serverScopeCancelled : Bool := false
deriving DecidableEq, Repr

/-- Constructor hook `ManagedClient.__attrs_post_init__`: the initial deadline is
`anyio.current_time() + settings.idle_timeout`. -/
def initManagedClient (t : TargetLspClient) (idleTimeout now : ℚ) :
    ManagedClient :=
  { target := t, deadline := now + idleTimeout }

/-- Method `ManagedClient._reset_timeout`: set
`_deadline = anyio.current_time() + settings.idle_timeout`, then call
`self._timeout_scope.cancel()`.  The deadline assignment precedes the
scope attribute access, so it persists even when that access raises
`AttributeError` because `_timeout_scope` was never assigned. -/
def resetTimeout (idleTimeout now : ℚ) (c : ManagedClient) :
    ManagedClient × Except PyError Unit :=
  let c := { c with deadline := now + idleTimeout }
  if c.timeoutScopeSet then
    ({ c with timeoutScopeCancelled := true }, .ok ())
  else
    (c, .error (.attributeError "_timeout_scope"))

/-- Method `ManagedClient.stop`: set `_should_exit`, set `_server.should_exit`,
cancel `_server_scope`, cancel `_timeout_scope`; each attribute access on a
never-assigned `init=False` field raises `AttributeError` at that point. -/
def stopClient (c : ManagedClient) : ManagedClient × Except PyError Unit :=
  let c := { c with shouldExit := true }
  if !c.serverSet then
    (c, .error (.attributeError "_server"))
  else
    let c := { c with serverShouldExit := true }
    if !c.serverScopeSet then
      (c, .error (.attributeError "_server_scope"))
    else
      let c := { c with serverScopeCancelled := true }
      if !c.timeoutScopeSet then
        (c, .error (.attributeError "_timeout_scope"))
      else
        ({ c with timeoutScopeCancelled := true }, .ok ())

/-! ## Session capability routes

The nine capability POST routes registered by `ManagedClient._create_app`.
Every handler has the same shape: call `self._reset_timeout()`, check the
client's capability interface with `isinstance` (raising
`TypeError("Client does not support ... capability")` when it fails),
lazily build the capability wrapper on the request-state object, and
dispatch.  The dispatch into the external `lsap` capability library is the
observable endpoint of the embedding. -/

inductive CapabilityRoute where
  | locate
  | definition
  | hover
  | reference
  | outline
  | symbol
  | search
  | renamePreview
  | renameExecute
deriving DecidableEq, Repr

/-- Which capability interfaces (`LocateClient`, `HoverClient`, ...) the
resolved LSP client class implements.  `rename` covers `RenameClient`,
checked by both rename routes. -/
structure ClientCaps where
  locate : Bool
  definition : Bool
  hover : Bool
  reference : Bool
  outline : Bool
  symbol : Bool
  search : Bool
  rename : Bool
deriving DecidableEq, Repr

/-- The `isinstance` check each route performs on the client. -/
def supportsRoute (caps : ClientCaps) : CapabilityRoute → Bool
  | .locate => caps.locate
  | .definition => caps.definition
  | .hover => caps.hover
  | .reference => caps.reference
  | .outline => caps.outline
  | .symbol => caps.symbol
  | .search => caps.search
  | .renamePreview => caps.rename
  | .renameExecute => caps.rename

/-- The capability name used in each route's `TypeError` message (both
rename routes say "rename"). -/
def capabilityName : CapabilityRoute → String
  | .locate => "locate"
  | .definition => "definition"
  | .hover => "hover"
  | .reference => "reference"
  | .outline => "outline"
  | .symbol => "symbol"
  | .search => "search"
  | .renamePreview => "rename"
  | .renameExecute => "rename"

/-- The message of the `TypeError` raised when the capability check
fails. -/
def notSupportedMsg (r : CapabilityRoute) : String :=
  "Client does not support " ++ capabilityName r ++ " capability"

/-- Observable steps a capability handler takes, in order. -/
inductive HandlerStep where
  | resetDeadline
  | dispatch (r : CapabilityRoute)
deriving DecidableEq, Repr

/-- One capability route handler of `ManagedClient._create_app`: reset the
idle deadline, then the capability `isinstance` check, then dispatch.
Returns the updated client state, the ordered trace of steps taken, and
the handler outcome (an escaping exception, or a completed dispatch). -/
def handleCapability (idleTimeout now : ℚ) (caps : ClientCaps)
    (r : CapabilityRoute) (c : ManagedClient) :
    ManagedClient × List HandlerStep × Except PyError Unit :=
  let reset := resetTimeout idleTimeout now c
  match reset.2 with
  | .error e => (reset.1, [.resetDeadline], .error e)
  | .ok _ =>
    if supportsRoute caps r then
      (reset.1, [.resetDeadline, .dispatch r], .ok ())
    else
      (reset.1, [.resetDeadline], .error (.typeError (notSupportedMsg r)))

/-! ## Idle-watchdog loop

`ManagedClient._timeout_loop`.  The loop body is modelled one iteration at
a time: an iteration either leaves the loop (after which the code sets
`self._server.should_exit = True` and cancels `_server_scope`) or sleeps
for the remaining time inside a fresh cancel scope captured into
`_timeout_scope`.  The loop runs as a subtask of `_serve`, after `_server`
and `_server_scope` have been assigned. -/

/-- The code after the `while` loop: `self._server.should_exit = True;
self._server_scope.cancel()`. -/
def timeoutLoopFinish (c : ManagedClient) : ManagedClient :=
  { c with serverShouldExit := true, serverScopeCancelled := true }

/-- Result of one iteration of `_timeout_loop`. -/
inductive IterOutcome where
  /-- the loop terminated and the post-loop code ran, with this final
  state. -/
  | exitLoop (c : ManagedClient)
  /-- the body sleeps for this long, with `_timeout_scope` holding the
  fresh scope. -/
  | sleepFor (remaining : ℚ) (c : ManagedClient)
deriving DecidableEq, Repr

/-- One iteration of `_timeout_loop`: the loop continues while
`_should_exit` is false, breaks if `_server.should_exit` is set, computes
`remaining = _deadline - anyio.current_time()`, breaks if
`remaining <= 0`, and otherwise sleeps for `remaining` inside a cancel
scope captured into `_timeout_scope`. -/
def timeoutLoopIter (c : ManagedClient) (now : ℚ) : IterOutcome :=
  if c.shouldExit then .exitLoop (timeoutLoopFinish c)
  else if c.serverShouldExit then .exitLoop (timeoutLoopFinish c)
  else if c.deadline - now ≤ 0 then .exitLoop (timeoutLoopFinish c)
  else .sleepFor (c.deadline - now)
    { c with timeoutScopeSet := true, timeoutScopeCancelled := false }

/-! ## Manager

`src/lsp_cli/manager/manager.py`.  The `_clients` dict is an association
list with unique keys; `spawned` counts the run-tasks handed to the
task-group via `soonify` (a spawned task is never re-spawned, so the count
witnesses both creation and the absence of auto-restart). -/

structure Manager where
  /-- Dict `_clients : dict[str, ManagedClient]`, insertion ordered. -/
  sessions : List (String × ManagedClient)
  /-- number of run-tasks spawned into `_tg` so far. -/
  spawned : Nat := 0
deriving DecidableEq, Repr

/-- Dictionary lookup on the association list. -/
def tblLookup : List (String × ManagedClient) → String → Option ManagedClient
  | [], _ => none
  | (k', v) :: rest, k => if k' = k then some v else tblLookup rest k

/-- Dictionary in-place value update (`self._clients[client_id]` mutation:
the stored object is mutated, the key set is unchanged). -/
def tblUpdate : List (String × ManagedClient) → String → ManagedClient →
    List (String × ManagedClient)
  | [], _, _ => []
  | (k', v) :: rest, k, c =>
    if k' = k then (k', c) :: rest else (k', v) :: tblUpdate rest k c

/-- Python `dict.pop(key, None)`: drop the entry with the given key. -/
def tblRemove : List (String × ManagedClient) → String →
    List (String × ManagedClient)
  | [], _ => []
  | (k', v) :: rest, k =>
    if k' = k then tblRemove rest k else (k', v) :: tblRemove rest k

/-- Method `Manager.create_client`: resolve the target with `find_client`,
raising litestar's `NotFoundException` when no descriptor claims the path;
compute the id; if absent, construct a `ManagedClient`, insert it, and
spawn its run-task; if present, call `_reset_timeout` on the stored
client.  Returns the stored client's `uds_path`. -/
def createClient (reg : List LanguageDescriptor) (runtimeDir : String)
    (idleTimeout now : ℚ) (m : Manager) (path : String) :
    Manager × Except PyError String :=
  match findClient reg path with
  | none => (m, .error (.notFound ("No LSP client found for path: " ++ path)))
  | some target =>
    let cid := getClientId target
    match tblLookup m.sessions cid with
    | none =>
      let c := initManagedClient target idleTimeout now
      ({ sessions := m.sessions ++ [(cid, c)], spawned := m.spawned + 1 },
        .ok (udsPath runtimeDir c.target))
    | some c =>
      let reset := resetTimeout idleTimeout now c
      let m := { m with sessions := tblUpdate m.sessions cid reset.1 }
      match reset.2 with
      | .ok _ => (m, .ok (udsPath runtimeDir reset.1.target))
      | .error e => (m, .error e)

/-- Method `Manager.delete_client`: if `find_client` resolves a target and its id
is in the table, call `stop()` on the stored client; otherwise do
nothing.  Never raises on an unclaimed path or an absent id. -/
def deleteClient (reg : List LanguageDescriptor) (m : Manager)
    (path : String) : Manager × Except PyError Unit :=
  match findClient reg path with
  | none => (m, .ok ())
  | some target =>
    let cid := getClientId target
    match tblLookup m.sessions cid with
    | none => (m, .ok ())
    | some c =>
      let stopped := stopClient c
      ({ m with sessions := tblUpdate m.sessions cid stopped.1 }, stopped.2)

/-! ## Session run-task and supervision

`ManagedClient.run` and `Manager._run_client`. -/

/-- How the body of `ManagedClient.run` (startup, LSP handshake, serving)
ends.  `cancelled` is external cancellation by an enclosing scope that is
still cancelled while the `finally` block runs (broker teardown cancelling
the manager's task group).  A self-initiated stop — idle expiry or
`stop()` cancelling `_server_scope` — is absorbed by that inner scope
inside the body, so the body then ends as `normal`. -/
inductive RunOutcome where
  | normal
  | cancelled
  | exception
deriving DecidableEq, Repr

/-- Per-session resources owned by the run-task. -/
structure RunState where
  client : ManagedClient
  /-- whether the session's socket file exists on disk. -/
  socketOnDisk : Bool
  /-- whether the per-session loguru sink is still registered. -/
  logSinkPresent : Bool
deriving DecidableEq, Repr

/-- What escapes the run-task: a Python exception, or the
`CancelledError` delivered by a cancelled enclosing scope.
`CancelledError` derives from `BaseException`, so `except Exception`
clauses do not catch it. -/
inductive RunExc where
  | pyExc (e : PyError)
  | cancelledError
deriving DecidableEq, Repr

/-- The `finally` block of `ManagedClient.run`, entered after the body
ends with the given outcome.  Its first statement is
`await uds_path.unlink(missing_ok=True)`, an awaited `anyio.Path`
operation that starts with a checkpoint: while the run-task sits in a
cancelled enclosing scope, anyio re-delivers the cancellation at that
checkpoint, so on the `cancelled` outcome the `finally` block aborts with
`CancelledError` before removing the file — the socket stays on disk, the
log sink stays registered, and nothing after the unlink runs.  On the
other outcomes the unlink and the `logger.remove` run, then the two scope
cancels; each scope access raises `AttributeError` when its attrs field
was never assigned (for example when the LSP handshake failed), but only
after the unlink and the sink removal have already happened. -/
def runFinally (r : RunState) (o : RunOutcome) :
    RunState × Except RunExc Unit :=
  match o with
  | .cancelled => (r, .error .cancelledError)
  | _ =>
    let r := { r with socketOnDisk := false, logSinkPresent := false }
    if !r.client.timeoutScopeSet then
      (r, .error (.pyExc (.attributeError "_timeout_scope")))
    else
      let r := { r with client := { r.client with timeoutScopeCancelled := true } }
      if !r.client.serverScopeSet then
        (r, .error (.pyExc (.attributeError "_server_scope")))
      else
        ({ r with client := { r.client with serverScopeCancelled := true } },
          .ok ())

/-- Method `ManagedClient.run`: whatever way the body ends, the `finally`
block is entered; an exception escaping the `finally` block replaces the
body's own outcome (Python semantics), so a cancelled run-task re-raises
its `CancelledError` through the aborted `finally`, and otherwise the
body's outcome stands. -/
def runTask (r : RunState) (outcome : RunOutcome) :
    RunState × Except RunExc Unit :=
  let fin := runFinally r outcome
  match fin.2 with
  | .error e => (fin.1, .error e)
  | .ok _ =>
    match outcome with
    | .exception => (fin.1, .error (.pyExc (.runtimeError "client run failed")))
    | _ => (fin.1, .ok ())

/-- Method `Manager._run_client`: runs `client.run()`; the
`except Exception` clause logs and re-raises (it does not catch
`CancelledError`), the `finally` clause pops the id from the table with a
synchronous `dict.pop` that runs on every path, cancellation included,
and the `@logger.catch(level="ERROR")` decorator logs and swallows what
escapes.  No new run-task is spawned. -/
def runClientSupervised (m : Manager) (cid : String) (r : RunState)
    (outcome : RunOutcome) : Manager × RunState :=
  let task := runTask r outcome
  ({ m with sessions := tblRemove m.sessions cid }, task.1)

/-! ## Auxiliary definitions for the statements -/

/-- Whether the pattern is an initial segment of the text. -/
def leadsWith : List Char → List Char → Bool
  | [], _ => true
  | _ :: _, [] => false
  | p :: ps, t :: ts => (p == t) && leadsWith ps ts

/-- Whether the pattern occurs contiguously somewhere in the text. -/
def occursIn (p : List Char) : List Char → Bool
  | [] => leadsWith p []
  | t :: ts => leadsWith p (t :: ts) || occursIn p ts

/-- Whether `sub` occurs as a substring of `msg`. -/
def containsSub (msg sub : String) : Bool :=
  occursIn sub.data msg.data

/-- Mark one table entry's `_timeout_scope` as assigned when its key
matches. -/
def scopeEntry (cid : String) (kv : String × ManagedClient) :
    String × ManagedClient :=
  if kv.1 = cid then (kv.1, { kv.2 with timeoutScopeSet := true }) else kv

/-- The manager state after the watchdog of the session with the given id
has run its first iteration (its sleep captured a cancel scope into
`_timeout_scope`). -/
def setScopeOn (m : Manager) (cid : String) : Manager :=
  { m with sessions := m.sessions.map (scopeEntry cid) }

/-! ## Concrete sample data used by witnesses and counterexamples -/

/-- A sample resolved target. -/
def sampleTarget : TargetLspClient := { projectPath := "/p/a", kind := "python" }

/-- A registry with one python descriptor claiming exactly `/p/a`. -/
def sampleReg : List LanguageDescriptor :=
  [{ kind := "python",
     findProjectRoot := fun p => if p = "/p/a" then some "/p/a" else none }]

/-- A session in steady serving state: `_server`, `_server_scope` and
`_timeout_scope` have all been assigned. -/
def runningClient : ManagedClient :=
  { target := sampleTarget, deadline := 300, serverSet := true,
    timeoutScopeSet := true, serverScopeSet := true }

/-- A freshly constructed session whose run-task has not yet reached the
watchdog loop: the scope fields are still unassigned. -/
def freshClient : ManagedClient := initManagedClient sampleTarget 300 0

/-- A client class implementing none of the capability interfaces. -/
def noCaps : ClientCaps :=
  { locate := false, definition := false, hover := false, reference := false,
    outline := false, symbol := false, search := false, rename := false }

/-- First root of a real xxHash32 collision pair (seed 0). -/
def collisionRootA : String := "/p/cae0"

/-- Second root of the collision pair: a different path with the same
32-bit hash as `collisionRootA`. -/
def collisionRootB : String := "/p/zqtq"

/-- A registry whose single python descriptor claims both collision roots
as distinct project roots. -/
def collisionReg : List LanguageDescriptor :=
  [{ kind := "python",
     findProjectRoot := fun p =>
       if p = collisionRootA then some collisionRootA
       else if p = collisionRootB then some collisionRootB
       else none }]

/-- A registry whose python descriptor claims the two distinct roots
`/p/a` and `/p/b` (whose hashes do not collide). -/
def twoRootReg : List LanguageDescriptor :=
  [{ kind := "python",
     findProjectRoot := fun p =>
       if p = "/p/a" then some "/p/a"
       else if p = "/p/b" then some "/p/b"
       else none }]

/-- A registry with descriptors for the kinds `go` and `python`, neither
of which claims any path. -/
def c3Reg : List LanguageDescriptor :=
  [{ kind := "go", findProjectRoot := fun _ => none },
   { kind := "python", findProjectRoot := fun _ => none }]

/-- A client class implementing every capability interface. -/
def allCaps : ClientCaps :=
  { locate := true, definition := true, hover := true, reference := true,
    outline := true, symbol := true, search := true, rename := true }

/-- A manager holding one freshly created session whose watchdog has not
yet run. -/
def freshManager : Manager :=
  { sessions := [(getClientId sampleTarget, freshClient)], spawned := 1 }

/-- A serving session's resources at the moment its run-task is torn
down: socket on disk, log sink registered, scopes assigned. -/
def sampleRun : RunState :=
  { client := runningClient, socketOnDisk := true, logSinkPresent := true }

/-! ## Table lemmas -/

theorem tblLookup_append_none {l : List (String × ManagedClient)}
    {k : String} (h : tblLookup l k = none) (c : ManagedClient) :
    tblLookup (l ++ [(k, c)]) k = some c := by
  induction l with
  | nil => simp [tblLookup]
  | cons kv rest ih =>
    obtain ⟨k', v⟩ := kv
    by_cases hk : k' = k
    · simp [tblLookup, hk] at h
    · simp only [tblLookup, List.cons_append, if_neg hk] at h ⊢
      exact ih h

theorem tblUpdate_length (l : List (String × ManagedClient)) (k : String)
    (c : ManagedClient) : (tblUpdate l k c).length = l.length := by
  induction l with
  | nil => rfl
  | cons kv rest ih =>
    obtain ⟨k', v⟩ := kv
    by_cases hk : k' = k
    · simp [tblUpdate, hk]
    · simp [tblUpdate, hk, ih]

theorem tblLookup_update_self {l : List (String × ManagedClient)}
    {k : String} {c : ManagedClient} (h : tblLookup l k = some c)
    (c' : ManagedClient) : tblLookup (tblUpdate l k c') k = some c' := by
  induction l with
  | nil => simp [tblLookup] at h
  | cons kv rest ih =>
    obtain ⟨k', v⟩ := kv
    by_cases hk : k' = k
    · simp [tblUpdate, tblLookup, hk]
    · simp only [tblLookup, if_neg hk] at h
      simp only [tblUpdate, if_neg hk, tblLookup]
      exact ih h

theorem scopeEntry_eq (cid k' : String) (v : ManagedClient) :
    scopeEntry cid (k', v)
      = if k' = cid then (k', { v with timeoutScopeSet := true })
        else (k', v) := rfl

theorem tblLookup_setScope (l : List (String × ManagedClient))
    (cid : String) :
    tblLookup (l.map (scopeEntry cid)) cid
      = (tblLookup l cid).map fun c => { c with timeoutScopeSet := true } := by
  induction l with
  | nil => rfl
  | cons kv rest ih =>
    obtain ⟨k', v⟩ := kv
    by_cases hk : k' = cid
    · subst hk
      rw [List.map_cons, scopeEntry_eq, if_pos rfl]
      simp [tblLookup]
    · rw [List.map_cons, scopeEntry_eq, if_neg hk]
      simp only [tblLookup]
      rw [if_neg hk, if_neg hk]
      exact ih

theorem tblRemove_lookup (l : List (String × ManagedClient)) (k : String) :
    tblLookup (tblRemove l k) k = none := by
  induction l with
  | nil => rfl
  | cons kv rest ih =>
    obtain ⟨k', v⟩ := kv
    by_cases hk : k' = k
    · simpa [tblRemove, hk] using ih
    · simp only [tblRemove, if_neg hk, tblLookup]
      exact ih

/-- Function `toHex8` always renders exactly eight characters. -/
theorem toHex8_length (n : Nat) : (toHex8 n).length = 8 := by
  simp [toHex8, String.length]

/-- The hash component of a session id always has eight characters. -/
theorem xxh32Hexdigest_data_length (s : String) :
    (xxh32Hexdigest s).data.length = 8 :=
  toHex8_length (xxh32 (strBytes s) 0)

/-! ## Claims -/

/-- C5: the session id is the deterministic string
`<language-kind>-<32-bit-hash(project-root-absolute-path)>-default`
(the hash being `xxh32_hexdigest` of the root's posix form); any two
targets resolving to the same (kind, root) receive the same id; and the
session's socket path is the runtime directory joined with `<id>.sock`. -/
theorem session_id_deterministic (t1 t2 : TargetLspClient) (rd : String)
    (hk : t1.kind = t2.kind) (hp : t1.projectPath = t2.projectPath) :
    getClientId t1
        = t1.kind ++ "-" ++ toHex8 (xxh32 (strBytes t1.projectPath) 0)
          ++ "-default"
    ∧ getClientId t1 = getClientId t2
    ∧ udsPath rd t1 = rd ++ "/" ++ getClientId t1 ++ ".sock" := by
  refine ⟨rfl, ?_, rfl⟩
  simp [getClientId, hk, hp]

/-- Witness for C5 at a concrete target and runtime directory. -/
theorem session_id_deterministic_witness :
    getClientId sampleTarget
        = sampleTarget.kind ++ "-"
          ++ toHex8 (xxh32 (strBytes sampleTarget.projectPath) 0)
          ++ "-default"
    ∧ getClientId sampleTarget = getClientId sampleTarget
    ∧ udsPath "/run" sampleTarget
        = "/run" ++ "/" ++ getClientId sampleTarget ++ ".sock" :=
  session_id_deterministic sampleTarget sampleTarget "/run" rfl rfl

/-- C3 counterexample: on a path no descriptor claims, the broker's
`create_client` raises `NotFoundException` whose message is
`"No LSP client found for path: <path>"`; with `python` among the
registry's supported kinds, that message does not contain `python`, so it
does not list the supported languages. -/
theorem create_message_lacks_supported_languages :
    (createClient c3Reg "/run" 300 0 { sessions := [] }
        "/nonexistent/file.xyz").2
      = .error
          (.notFound "No LSP client found for path: /nonexistent/file.xyz")
    ∧ (c3Reg.map LanguageDescriptor.kind) = ["go", "python"]
    ∧ containsSub "No LSP client found for path: /nonexistent/file.xyz"
        "python" = false :=
  ⟨rfl, rfl, by decide⟩

/-- C3 amended: for every path that no descriptor claims, the broker's
`create_client` raises litestar's `NotFoundException` — surfaced from
`POST /create` as HTTP 404, a 4xx — with the message
`"No LSP client found for path: <path>"`, which names the path but does
not list the supported languages (that listing is printed by the CLI
front-end's `server start` command before contacting the broker); and the
failed call leaves the session table and the spawn count unchanged. -/
theorem create_unsupported_path_404
    (reg : List LanguageDescriptor) (rd : String) (idle now : ℚ)
    (m : Manager) (path : String) (hf : findClient reg path = none) :
    createClient reg rd idle now m path
      = (m, .error (.notFound ("No LSP client found for path: " ++ path)))
    ∧ httpStatus (.notFound ("No LSP client found for path: " ++ path)) = 404
    ∧ is4xx 404 := by
  refine ⟨?_, rfl, ⟨by norm_num, by norm_num⟩⟩
  simp [createClient, hf]

/-- Witness for C3 amended: the `c3Reg` registry claims no path at all. -/
theorem create_unsupported_path_404_witness :
    createClient c3Reg "/run" 300 0 { sessions := [] } "/missing.rb"
      = ({ sessions := [] },
          .error (.notFound ("No LSP client found for path: " ++ "/missing.rb")))
    ∧ httpStatus (.notFound ("No LSP client found for path: " ++ "/missing.rb"))
        = 404
    ∧ is4xx 404 :=
  create_unsupported_path_404 c3Reg "/run" 300 0 { sessions := [] }
    "/missing.rb" rfl

/-- C1 counterexample: at a resolved client lacking the hover capability,
the hover handler's escaping exception is a plain
`TypeError("Client does not support hover capability")`; litestar
surfaces a plain `TypeError` as HTTP 500, which is not in the 4xx band
the claim asserts. -/
theorem capability_unsupported_not_4xx :
    (handleCapability 300 0 noCaps CapabilityRoute.hover runningClient).2.2
      = .error (.typeError "Client does not support hover capability")
    ∧ httpStatus (.typeError "Client does not support hover capability") = 500
    ∧ ¬ is4xx 500 :=
  ⟨rfl, rfl, fun h => by simp [is4xx] at h⟩

/-- C1 amended: on every capability route (locate, definition, hover,
reference, outline, symbol, search, rename/preview, rename/execute), when
the resolved client lacks the requested capability, the handler raises a
structured `TypeError("Client does not support <capability> capability")`,
which surfaces to the caller as a 500 internal-server-error response (not
a 4xx); the session itself is not crashed: the handler sets no exit
flag and cancels no server scope, so the session keeps serving. -/
theorem capability_unsupported_structured_500
    (idle now : ℚ) (caps : ClientCaps) (r : CapabilityRoute)
    (c : ManagedClient) (hscope : c.timeoutScopeSet = true)
    (hun : supportsRoute caps r = false) :
    (handleCapability idle now caps r c).2.2
        = .error (.typeError (notSupportedMsg r))
    ∧ httpStatus (.typeError (notSupportedMsg r)) = 500
    ∧ ¬ is4xx (httpStatus (.typeError (notSupportedMsg r)))
    ∧ (handleCapability idle now caps r c).1.shouldExit = c.shouldExit
    ∧ (handleCapability idle now caps r c).1.serverShouldExit
        = c.serverShouldExit
    ∧ (handleCapability idle now caps r c).1.serverScopeCancelled
        = c.serverScopeCancelled := by
  refine ⟨?_, rfl, fun h => by simp [httpStatus, is4xx] at h, ?_, ?_, ?_⟩ <;>
    simp [handleCapability, resetTimeout, hscope, hun]

/-- Witness for C1 amended: the rename/execute route on a capability-free
client in steady serving state. -/
theorem capability_unsupported_structured_500_witness :
    (handleCapability 300 0 noCaps CapabilityRoute.renameExecute
        runningClient).2.2
        = .error (.typeError (notSupportedMsg CapabilityRoute.renameExecute))
    ∧ httpStatus (.typeError (notSupportedMsg CapabilityRoute.renameExecute))
        = 500
    ∧ ¬ is4xx (httpStatus
        (.typeError (notSupportedMsg CapabilityRoute.renameExecute)))
    ∧ (handleCapability 300 0 noCaps CapabilityRoute.renameExecute
          runningClient).1.shouldExit = runningClient.shouldExit
    ∧ (handleCapability 300 0 noCaps CapabilityRoute.renameExecute
          runningClient).1.serverShouldExit = runningClient.serverShouldExit
    ∧ (handleCapability 300 0 noCaps CapabilityRoute.renameExecute
          runningClient).1.serverScopeCancelled
        = runningClient.serverScopeCancelled :=
  capability_unsupported_structured_500 300 0 noCaps
    CapabilityRoute.renameExecute runningClient rfl rfl

/-- C2 counterexample: the two distinct roots `/p/cae0` and `/p/zqtq` have
the same 32-bit hash, hence the same session id for the same language
kind; when both are created back to back the manager's table ends with a
single entry — the two targets collapse into one session. -/
theorem hash_collision_collapses_sessions :
    collisionRootA ≠ collisionRootB
    ∧ xxh32Hexdigest collisionRootA = xxh32Hexdigest collisionRootB
    ∧ getClientId { projectPath := collisionRootA, kind := "python" }
        = getClientId { projectPath := collisionRootB, kind := "python" }
    ∧ (createClient collisionReg "/run" 300 0
          (createClient collisionReg "/run" 300 0 { sessions := [] }
            collisionRootA).1 collisionRootB).1.sessions.length = 1 :=
  ⟨by decide, by decide, by decide, by decide⟩

/-- C2 amended: the manager keys sessions by the id
`<kind>-<xxh32(root)>-default` alone, so two same-kind targets with
distinct roots map to distinct sessions exactly when their 32-bit hash
digests differ: with different digests the ids differ and a create for
each target yields two table entries; when the digests collide the ids
coincide and the targets collapse into one session (see the
counterexample). -/
theorem distinct_hashes_distinct_sessions
    (t1 t2 : TargetLspClient) (reg : List LanguageDescriptor)
    (rd : String) (idle n1 n2 : ℚ) (p1 p2 : String)
    (hk : t1.kind = t2.kind)
    (hh : xxh32Hexdigest t1.projectPath ≠ xxh32Hexdigest t2.projectPath)
    (hf1 : findClient reg p1 = some t1)
    (hf2 : findClient reg p2 = some t2) :
    getClientId t1 ≠ getClientId t2
    ∧ (createClient reg rd idle n2
          (createClient reg rd idle n1 { sessions := [] } p1).1
          p2).1.sessions.length = 2 := by
  have hne : getClientId t1 ≠ getClientId t2 := by
    intro h
    apply hh
    have hd : (getClientId t1).data = (getClientId t2).data := by rw [h]
    simp only [getClientId, hk, String.data_append] at hd
    rw [List.append_assoc, List.append_assoc, List.append_assoc,
      List.append_assoc] at hd
    have hd2 := List.append_cancel_left hd
    have hd3 := List.append_cancel_left hd2
    have hd4 := (List.append_inj hd3
      (by rw [xxh32Hexdigest_data_length, xxh32Hexdigest_data_length])).1
    exact String.ext hd4
  refine ⟨hne, ?_⟩
  have h1 : (createClient reg rd idle n1 { sessions := [] } p1).1
      = { sessions := [(getClientId t1, initManagedClient t1 idle n1)],
          spawned := 1 } := by
    simp [createClient, hf1, tblLookup]
  rw [h1]
  simp only [createClient, hf2, tblLookup]
  rw [if_neg hne]
  simp

/-- Witness for C2 amended: the non-colliding roots `/p/a` and `/p/b`. -/
theorem distinct_hashes_distinct_sessions_witness :
    getClientId { projectPath := "/p/a", kind := "python" }
        ≠ getClientId { projectPath := "/p/b", kind := "python" }
    ∧ (createClient twoRootReg "/run" 300 0
          (createClient twoRootReg "/run" 300 0 { sessions := [] }
            "/p/a").1 "/p/b").1.sessions.length = 2 :=
  distinct_hashes_distinct_sessions
    { projectPath := "/p/a", kind := "python" }
    { projectPath := "/p/b", kind := "python" }
    twoRootReg "/run" 300 0 0 "/p/a" "/p/b" rfl (by decide)
    (by decide) (by decide)

/-- C6: every capability handler calls `_reset_timeout()` as its first
step, before any dispatch to the LSP capability, and the reset sets the
deadline to `now + idle_timeout`; hence after a capability request served
at time `now` the session's deadline is at least
`now + idle_timeout - eps` for every `eps ≥ 0`. -/
theorem capability_handler_resets_deadline_first
    (idle now eps : ℚ) (caps : ClientCaps) (r : CapabilityRoute)
    (c : ManagedClient) (hscope : c.timeoutScopeSet = true)
    (heps : 0 ≤ eps) :
    (handleCapability idle now caps r c).2.1.head? = some .resetDeadline
    ∧ (supportsRoute caps r = true →
        (handleCapability idle now caps r c).2.1
          = [.resetDeadline, .dispatch r])
    ∧ (handleCapability idle now caps r c).1.deadline = now + idle
    ∧ now + idle - eps ≤ (handleCapability idle now caps r c).1.deadline := by
  by_cases hsup : supportsRoute caps r = true <;>
    simp [handleCapability, resetTimeout, hscope, hsup] <;> linarith

/-- Witness for C6: a hover request on a fully capable client in steady
serving state at time 0, with idle timeout 300 and tolerance 1. -/
theorem capability_handler_resets_deadline_first_witness :
    (handleCapability 300 0 allCaps CapabilityRoute.hover
        runningClient).2.1.head? = some .resetDeadline
    ∧ (supportsRoute allCaps CapabilityRoute.hover = true →
        (handleCapability 300 0 allCaps CapabilityRoute.hover
            runningClient).2.1
          = [.resetDeadline, .dispatch CapabilityRoute.hover])
    ∧ (handleCapability 300 0 allCaps CapabilityRoute.hover
          runningClient).1.deadline = 0 + 300
    ∧ (0 : ℚ) + 300 - 1
        ≤ (handleCapability 300 0 allCaps CapabilityRoute.hover
            runningClient).1.deadline :=
  capability_handler_resets_deadline_first 300 0 1 allCaps
    CapabilityRoute.hover runningClient rfl (by norm_num)

/-- C7: the idle-watchdog loop follows the specified algorithm.  While the
exit flags are false, an iteration computes `remaining = deadline - now`;
if `remaining ≤ 0` the loop returns having set the server's exit flag and
cancelled the server scope; otherwise it sleeps for `remaining` inside a
cancel scope captured into `_timeout_scope`.  `_reset_timeout` sets
`deadline = now + idle_timeout` and cancels `_timeout_scope`, and the
iteration that follows a reset computes its remaining time from the new
deadline. -/
theorem timeout_loop_follows_algorithm
    (c : ManagedClient) (idle now t now' : ℚ)
    (h1 : c.shouldExit = false) (h2 : c.serverShouldExit = false) :
    (c.deadline - now ≤ 0 →
      timeoutLoopIter c now = .exitLoop (timeoutLoopFinish c)
        ∧ (timeoutLoopFinish c).serverShouldExit = true
        ∧ (timeoutLoopFinish c).serverScopeCancelled = true)
    ∧ (0 < c.deadline - now →
      timeoutLoopIter c now
        = .sleepFor (c.deadline - now)
            { c with timeoutScopeSet := true, timeoutScopeCancelled := false })
    ∧ (c.timeoutScopeSet = true →
      (resetTimeout idle t c).2 = .ok ()
        ∧ (resetTimeout idle t c).1.deadline = t + idle
        ∧ (resetTimeout idle t c).1.timeoutScopeCancelled = true
        ∧ (0 < t + idle - now' →
          timeoutLoopIter (resetTimeout idle t c).1 now'
            = .sleepFor (t + idle - now')
                { (resetTimeout idle t c).1 with
                    timeoutScopeSet := true,
                    timeoutScopeCancelled := false })) := by
  refine ⟨fun h => ?_, fun h => ?_, fun hscope => ?_⟩
  · simp [timeoutLoopIter, timeoutLoopFinish, h1, h2, h]
  · simp [timeoutLoopIter, h1, h2, not_le.mpr h, le_of_lt]
  · refine ⟨by simp [resetTimeout, hscope], by simp [resetTimeout, hscope],
      by simp [resetTimeout, hscope], fun h => ?_⟩
    simp [resetTimeout, hscope, timeoutLoopIter, h1, h2]
    linarith

/-- Witness for C7 at concrete states and times: an expired deadline exits
the loop; a live deadline sleeps for the remaining time; a reset while the
scope is captured succeeds and moves the deadline. -/
theorem timeout_loop_follows_algorithm_witness :
    timeoutLoopIter runningClient 400
        = .exitLoop (timeoutLoopFinish runningClient)
    ∧ timeoutLoopIter runningClient 0
        = .sleepFor (runningClient.deadline - 0)
            { runningClient with
                timeoutScopeSet := true, timeoutScopeCancelled := false }
    ∧ (resetTimeout 300 500 runningClient).2 = .ok ()
    ∧ (resetTimeout 300 500 runningClient).1.deadline = 500 + 300 := by
  have ha := timeout_loop_follows_algorithm runningClient 300 400 500 0 rfl rfl
  have hb := timeout_loop_follows_algorithm runningClient 300 0 500 0 rfl rfl
  exact ⟨(ha.1 (by norm_num [runningClient])).1,
    hb.2.1 (by norm_num [runningClient]), (ha.2.2 rfl).1,
    (ha.2.2 rfl).2.1⟩

/-- C4: `create_client` is idempotent on the session table.  A first call
for an absent id inserts exactly one entry and spawns its run-task; a
second back-to-back call for the same (kind, root) — taken after the new
session's watchdog has captured its cancel scope — constructs no new
session, spawns no new run-task, only resets the stored session's
deadline, and returns the same socket path as the first call. -/
theorem create_idempotent_on_table
    (reg : List LanguageDescriptor) (rd path : String) (idle t1 t2 : ℚ)
    (m : Manager) (target : TargetLspClient)
    (hf : findClient reg path = some target)
    (habs : tblLookup m.sessions (getClientId target) = none) :
    (createClient reg rd idle t1 m path).1.sessions
        = m.sessions
          ++ [(getClientId target, initManagedClient target idle t1)]
    ∧ (createClient reg rd idle t1 m path).1.spawned = m.spawned + 1
    ∧ (createClient reg rd idle t1 m path).2 = .ok (udsPath rd target)
    ∧ (createClient reg rd idle t2
          (setScopeOn (createClient reg rd idle t1 m path).1
            (getClientId target)) path).2 = .ok (udsPath rd target)
    ∧ (createClient reg rd idle t2
          (setScopeOn (createClient reg rd idle t1 m path).1
            (getClientId target)) path).1.spawned = m.spawned + 1
    ∧ (createClient reg rd idle t2
          (setScopeOn (createClient reg rd idle t1 m path).1
            (getClientId target)) path).1.sessions.length
        = m.sessions.length + 1
    ∧ tblLookup (createClient reg rd idle t2
          (setScopeOn (createClient reg rd idle t1 m path).1
            (getClientId target)) path).1.sessions (getClientId target)
        = some { target := target, deadline := t2 + idle,
                 timeoutScopeSet := true, timeoutScopeCancelled := true } := by
  have hfirst : createClient reg rd idle t1 m path
      = ({ sessions := m.sessions
            ++ [(getClientId target, initManagedClient target idle t1)],
           spawned := m.spawned + 1 }, .ok (udsPath rd target)) := by
    simp [createClient, hf, habs, initManagedClient]
  have hlook2 : tblLookup
      (setScopeOn (createClient reg rd idle t1 m path).1
        (getClientId target)).sessions (getClientId target)
      = some { initManagedClient target idle t1 with
          timeoutScopeSet := true } := by
    rw [hfirst]
    show tblLookup ((m.sessions ++ [(getClientId target,
        initManagedClient target idle t1)]).map
        (scopeEntry (getClientId target))) (getClientId target) = _
    rw [tblLookup_setScope, tblLookup_append_none habs]
    rfl
  have hsecond : createClient reg rd idle t2
      (setScopeOn (createClient reg rd idle t1 m path).1
        (getClientId target)) path
      = ({ sessions := tblUpdate
            (setScopeOn (createClient reg rd idle t1 m path).1
              (getClientId target)).sessions (getClientId target)
            { target := target, deadline := t2 + idle,
              timeoutScopeSet := true, timeoutScopeCancelled := true },
           spawned := (setScopeOn (createClient reg rd idle t1 m path).1
              (getClientId target)).spawned },
          .ok (udsPath rd target)) := by
    generalize hM : setScopeOn (createClient reg rd idle t1 m path).1
      (getClientId target) = M at hlook2 ⊢
    simp only [createClient, hf, hlook2]
    simp [resetTimeout, initManagedClient]
  refine ⟨by rw [hfirst], by rw [hfirst], by rw [hfirst], by rw [hsecond],
    ?_, ?_, ?_⟩
  · rw [hsecond]
    rw [hfirst]
    rfl
  · rw [hsecond]
    simp only [tblUpdate_length]
    rw [hfirst]
    show ((m.sessions ++ [(getClientId target,
        initManagedClient target idle t1)]).map
        (scopeEntry (getClientId target))).length = m.sessions.length + 1
    simp
  · rw [hsecond]
    show tblLookup (tblUpdate _ _ _) _ = _
    exact tblLookup_update_self hlook2 _

/-- Witness for C4: two creates for `/p/a` against an initially empty
manager, the second after the watchdog captured its scope. -/
theorem create_idempotent_on_table_witness :
    (createClient sampleReg "/run" 300 0 { sessions := [] } "/p/a").2
        = .ok (udsPath "/run" sampleTarget)
    ∧ (createClient sampleReg "/run" 300 7
          (setScopeOn (createClient sampleReg "/run" 300 0
              { sessions := [] } "/p/a").1
            (getClientId sampleTarget)) "/p/a").2
        = .ok (udsPath "/run" sampleTarget)
    ∧ (createClient sampleReg "/run" 300 7
          (setScopeOn (createClient sampleReg "/run" 300 0
              { sessions := [] } "/p/a").1
            (getClientId sampleTarget)) "/p/a").1.sessions.length = 0 + 1 := by
  have h := create_idempotent_on_table sampleReg "/run" "/p/a" 300 0 7
    { sessions := [] } sampleTarget (by decide) rfl
  exact ⟨h.2.2.1, h.2.2.2.1, h.2.2.2.2.2.1⟩

/-- C9: `delete_client` resolves the id and calls `stop()` on the stored
session when one is present (setting its exit flag); it is idempotent:
deleting a path whose id is absent from the table, or that no descriptor
claims, succeeds without raising and leaves the session table unchanged. -/
theorem delete_client_idempotent
    (reg : List LanguageDescriptor) (m : Manager) (path : String) :
    (findClient reg path = none → deleteClient reg m path = (m, .ok ()))
    ∧ (∀ t, findClient reg path = some t →
        tblLookup m.sessions (getClientId t) = none →
        deleteClient reg m path = (m, .ok ()))
    ∧ (∀ t c, findClient reg path = some t →
        tblLookup m.sessions (getClientId t) = some c →
        (deleteClient reg m path).1.sessions
            = tblUpdate m.sessions (getClientId t) (stopClient c).1
          ∧ (stopClient c).1.shouldExit = true) := by
  refine ⟨fun h => by simp [deleteClient, h],
    fun t hf habs => by simp [deleteClient, hf, habs],
    fun t c hf hp => ⟨by simp [deleteClient, hf, hp], ?_⟩⟩
  simp only [stopClient]
  split
  · rfl
  · split
    · rfl
    · split
      · rfl
      · rfl

/-- Witness for C9: deleting an unclaimed path, a claimed-but-absent path,
and a present session. -/
theorem delete_client_idempotent_witness :
    deleteClient sampleReg { sessions := [] } "/elsewhere"
        = ({ sessions := [] }, .ok ())
    ∧ deleteClient sampleReg { sessions := [] } "/p/a"
        = ({ sessions := [] }, .ok ())
    ∧ (stopClient freshClient).1.shouldExit = true := by
  have h1 := delete_client_idempotent sampleReg { sessions := [] } "/elsewhere"
  have h2 := delete_client_idempotent sampleReg { sessions := [] } "/p/a"
  have h3 := delete_client_idempotent sampleReg freshManager "/p/a"
  exact ⟨h1.1 rfl, h2.2.1 sampleTarget (by decide) rfl,
    (h3.2.2 sampleTarget freshClient (by decide)
      (by simp [freshManager, tblLookup])).2⟩

/-- C10: if `create_client` runs for a target whose session is already in
the table but whose run-task has not yet entered the idle-watchdog loop,
the reuse branch's `_reset_timeout` reads the `_timeout_scope` attrs field
that is only assigned inside the watchdog loop, so the call raises
`AttributeError` instead of returning the socket path; once the watchdog
has captured its scope, reuse succeeds and returns the socket path. -/
theorem create_reuse_requires_watchdog
    (reg : List LanguageDescriptor) (rd : String) (idle now : ℚ)
    (m : Manager) (path : String) (target : TargetLspClient)
    (c : ManagedClient)
    (hf : findClient reg path = some target)
    (hp : tblLookup m.sessions (getClientId target) = some c) :
    (c.timeoutScopeSet = false →
      (createClient reg rd idle now m path).2
        = .error (.attributeError "_timeout_scope"))
    ∧ (c.timeoutScopeSet = true →
      (createClient reg rd idle now m path).2
        = .ok (udsPath rd c.target)) := by
  constructor <;> intro hscope <;>
    simp [createClient, hf, hp, resetTimeout, hscope]

/-- Witness for C10: a manager holding a freshly constructed session whose
watchdog has not run; reusing it raises, while the same session with its
scope captured is reused without error. -/
theorem create_reuse_requires_watchdog_witness :
    (createClient sampleReg "/run" 300 0 freshManager "/p/a").2
        = .error (.attributeError "_timeout_scope")
    ∧ (createClient sampleReg "/run" 300 0 (setScopeOn freshManager
          (getClientId sampleTarget)) "/p/a").2
        = .ok (udsPath "/run" sampleTarget) := by
  have h1 := create_reuse_requires_watchdog sampleReg "/run" 300 0
    freshManager "/p/a" sampleTarget freshClient (by decide)
    (by simp [freshManager, tblLookup])
  have h2 := create_reuse_requires_watchdog sampleReg "/run" 300 0
    (setScopeOn freshManager (getClientId sampleTarget)) "/p/a" sampleTarget
    { freshClient with timeoutScopeSet := true } (by decide)
    (by rw [show (setScopeOn freshManager (getClientId sampleTarget)).sessions
          = freshManager.sessions.map (scopeEntry (getClientId sampleTarget))
        from rfl, tblLookup_setScope]
        simp [freshManager, tblLookup])
  exact ⟨h1.1 rfl, h2.2 rfl⟩

/-- C8: the code evaluated at the failing input.  For a serving session
whose socket exists and whose sink is registered: when the run-task is
cancelled externally, the `finally` block aborts at the awaited unlink's
initial checkpoint and the run-task re-raises `CancelledError`, so the
socket is NOT unlinked and the log sink is NOT removed — diverging from
the claim's "every exit path, including cancellation".  Normal completion
and exception exits do clean up both resources, and on every outcome,
cancellation included, the manager's synchronous `finally` removes the id
from the table and spawns no replacement run-task. -/
theorem run_task_cancelled_skips_cleanup :
    (runTask sampleRun RunOutcome.cancelled).1.socketOnDisk = true
    ∧ (runTask sampleRun RunOutcome.cancelled).1.logSinkPresent = true
    ∧ (runTask sampleRun RunOutcome.cancelled).2 = .error .cancelledError
    ∧ (runTask sampleRun RunOutcome.normal).1.socketOnDisk = false
    ∧ (runTask sampleRun RunOutcome.normal).1.logSinkPresent = false
    ∧ (runTask sampleRun RunOutcome.exception).1.socketOnDisk = false
    ∧ (runTask sampleRun RunOutcome.exception).1.logSinkPresent = false
    ∧ tblLookup (runClientSupervised freshManager (getClientId sampleTarget)
          sampleRun RunOutcome.cancelled).1.sessions (getClientId sampleTarget)
        = none
    ∧ (runClientSupervised freshManager (getClientId sampleTarget) sampleRun
          RunOutcome.cancelled).1.spawned = freshManager.spawned :=
  ⟨rfl, rfl, rfl, rfl, rfl, rfl, rfl,
    tblRemove_lookup freshManager.sessions (getClientId sampleTarget), rfl⟩

end LspCli
